import Mathlib

/-
Verification of the loan-collection voice bot's conversation engine.

The definitions below are a shallow embedding of the Python sources:
  nlp.py       (NLPProcessor: analyze_utterance, _fallback_analysis, the
                intent pattern table and the _normalize_* maps)
  telephony.py (handle_speech_result's turn-numbering and reply tail,
                handle_intent)
  db.py        (log_call_turn usage, parse_promise_date)
Machine floats of the source are modelled as rationals; Python dicts as
association lists; a Python function that can raise is modelled with
Option/Except.
-/

set_option maxRecDepth 4000

/-! ## Basic string helpers -/

/-- The apostrophe character, used inside several source pattern strings. -/
def apos : Char := Char.ofNat 39

/-- Whether `hay` starts with `needle` (character lists). -/
def subAt : List Char → List Char → Bool
| [], _ => true
| _ :: _, [] => false
| n :: ns, h :: hs => n = h && subAt ns hs

/-- Whether `needle` occurs anywhere inside `hay` (character lists). -/
def hasSub : List Char → List Char → Bool
| ns, [] => subAt ns []
| ns, h :: hs => subAt ns (h :: hs) || hasSub ns hs

/-- Python's `needle in hay` substring test on strings. -/
def strIn (needle hay : String) : Bool := hasSub needle.data hay.data

/-- Python `str.lower()` on the ASCII texts this system handles. -/
def pyLower (s : String) : String := String.mk (s.data.map Char.toLower)

/-- Python `str.upper()` on the ASCII texts this system handles. -/
def pyUpper (s : String) : String := String.mk (s.data.map Char.toUpper)

/-- The whitespace characters Python `str.strip()` and `\s` recognize. -/
def pyWs (c : Char) : Bool :=
  c = ' ' || c = '\t' || c = '\n' || c = '\r' || c = Char.ofNat 11 || c = Char.ofNat 12

/-- Python `str.strip()` of surrounding whitespace. -/
def pyStrip (s : String) : String :=
  String.mk (((s.data.dropWhile pyWs).reverse.dropWhile pyWs).reverse)

/-- First-match lookup in a string-keyed association list
(models Python `dict.get` for string values). -/
def lookupStr (m : List (String × String)) (k : String) : Option String :=
  (m.find? (fun kv => kv.1 = k)).map (fun kv => kv.2)

/-- Decimal digits to a natural number. -/
def digitsToNat (l : List Char) : Nat :=
  l.foldl (fun acc c => acc * 10 + (c.toNat - 48)) 0

/-! ## Enumerations from utils.py -/

/-- Conversation intents (utils.py `Intent`). -/
inductive Intent where
  | GREETING | VERIFICATION | MAKE_PAYMENT | PROMISE_TO_PAY | DISPUTE
  | WRONG_NUMBER | CALLBACK_LATER | HARDSHIP | TRANSFER_AGENT | DO_NOT_CALL
  | UNCLEAR
deriving DecidableEq, Repr

/-- The `.value` string of each `Intent` member. -/
def Intent.value : Intent → String
| .GREETING => "GREETING"
| .VERIFICATION => "VERIFICATION"
| .MAKE_PAYMENT => "MAKE_PAYMENT"
| .PROMISE_TO_PAY => "PROMISE_TO_PAY"
| .DISPUTE => "DISPUTE"
| .WRONG_NUMBER => "WRONG_NUMBER"
| .CALLBACK_LATER => "CALLBACK_LATER"
| .HARDSHIP => "HARDSHIP"
| .TRANSFER_AGENT => "TRANSFER_AGENT"
| .DO_NOT_CALL => "DO_NOT_CALL"
| .UNCLEAR => "UNCLEAR"

/-- Call conversation states (utils.py `CallState`). -/
inductive CallState where
  | START | CONSENT | VERIFY_IDENTITY | MAIN_MENU | COLLECT_DETAILS
  | WRAP_UP | END_CALL | TRANSFER
deriving DecidableEq, Repr

/-- The `.value` string of each `CallState` member. -/
def CallState.value : CallState → String
| .START => "START"
| .CONSENT => "CONSENT"
| .VERIFY_IDENTITY => "VERIFY_IDENTITY"
| .MAIN_MENU => "MAIN_MENU"
| .COLLECT_DETAILS => "COLLECT_DETAILS"
| .WRAP_UP => "WRAP_UP"
| .END_CALL => "END_CALL"
| .TRANSFER => "TRANSFER"

/-- Conversation sentiment (utils.py `Sentiment`). -/
inductive Sentiment where
  | POSITIVE | NEUTRAL | NEGATIVE
deriving DecidableEq, Repr

/-- The `.value` string of each `Sentiment` member. -/
def Sentiment.value : Sentiment → String
| .POSITIVE => "POSITIVE"
| .NEUTRAL => "NEUTRAL"
| .NEGATIVE => "NEGATIVE"

/-! ## A small regular-expression engine

Just enough of Python `re` semantics for the patterns in
`NLPProcessor.intent_patterns` and the slot-extraction patterns of
`_fallback_analysis`: literal characters, the classes `\d`, `\s` and `.`,
concatenation, preference-ordered alternation, greedy `*` and `?`, the
zero-width word boundary `\b`, and one capturing group. The matcher is a
backtracking matcher in continuation-passing style, exactly the strategy
(leftmost start, then left-alternative-first / greedy preference) that
Python's `re.search` uses, so the Boolean match answer and the captured
text agree with the source for these patterns. -/

/-- Character classes appearing in the source patterns. -/
inductive CharClass where
  | lit (c : Char)
  | digit
  | ws
  | dotAny
deriving DecidableEq, Repr

/-- Membership test of a character class (`\d`, `\s`, `.` per Python `re`). -/
def CharClass.test : CharClass → Char → Bool
| .lit c, x => x = c
| .digit, x => x.isDigit
| .ws, x => pyWs x
| .dotAny, x => !(x = '\n')

/-- Regular expressions over `CharClass`, with greedy star, one capturing
group (`grp`) and word boundaries (`wb`). -/
inductive RE where
  | eps
  | cls (c : CharClass)
  | seq (a b : RE)
  | alt (a b : RE)
  | star (a : RE)
  | grp (a : RE)
  | wb
deriving DecidableEq, Repr

/-- Node count of a regular expression (used to size the matcher's fuel). -/
def reSize : RE → Nat
| .eps => 1
| .cls _ => 1
| .seq a b => reSize a + reSize b + 1
| .alt a b => reSize a + reSize b + 1
| .star a => reSize a + 1
| .grp a => reSize a + 1
| .wb => 1

/-- Python's `\w` class on the ASCII texts this system handles. -/
def isWordChar (c : Char) : Bool := c.isAlphanum || c = '_'

/-- Word-character test lifted to an optional adjacent character;
the edge of the string counts as a non-word character. -/
def isWordOpt : Option Char → Bool
| none => false
| some c => isWordChar c

/-- The text captured by the marked group, when the group matched. -/
abbrev Cap := Option (List Char)

/-- Backtracking matcher. `prev` is the character just before the current
position (for `\b`), `s` the remaining input, `g` the capture so far and
`k` the continuation; alternatives are tried in preference order via
`<|>`, and `star` consumes greedily with an emptiness guard, as Python's
backtracking engine does. The fuel only bounds recursion depth; one unit
is spent per regex node entered or star iteration started, so any fuel
of at least `reSize re * (length + 2)` can never be exhausted. -/
def reMat : Nat → RE → Option Char → List Char → Cap →
    (Option Char → List Char → Cap → Option Cap) → Option Cap
| 0, _, _, _, _, _ => none
| Nat.succ fuel, re, prev, s, g, k =>
  match re with
  | .eps => k prev s g
  | .cls c =>
    match s with
    | [] => none
    | x :: xs => if c.test x then k (some x) xs g else none
  | .seq a b => reMat fuel a prev s g (fun p2 s2 g2 => reMat fuel b p2 s2 g2 k)
  | .alt a b => (reMat fuel a prev s g k) <|> (reMat fuel b prev s g k)
  | .star a =>
    (reMat fuel a prev s g (fun p2 s2 g2 =>
      if s2.length < s.length then reMat fuel (.star a) p2 s2 g2 k else none))
    <|> k prev s g
  | .grp a => reMat fuel a prev s g
      (fun p2 s2 _ => k p2 s2 (some (s.take (s.length - s2.length))))
  | .wb => if isWordOpt prev != isWordOpt s.head? then k prev s g else none

/-- Try the pattern at each start position, leftmost first
(the position scan of Python `re.search`). -/
def reSearchAux (re : RE) (fuel : Nat) : Option Char → List Char → Option Cap
| prev, s =>
  match reMat fuel re prev s none (fun _ _ g => some g) with
  | some g => some g
  | none =>
    match s with
    | [] => none
    | x :: xs => reSearchAux re fuel (some x) xs

/-- Fuel that the matcher can never exhaust on input `s`. -/
def reFuel (re : RE) (s : List Char) : Nat := (reSize re + 2) * (s.length + 2)

/-- Boolean `re.search(pattern, s)`. -/
def reSearch (re : RE) (s : String) : Bool :=
  (reSearchAux re (reFuel re s.data) none s.data).isSome

/-- `re.search(pattern, s)` followed by reading the marked group
(`match.group(...)` in the source). -/
def reCapture (re : RE) (s : String) : Option String :=
  match reSearchAux re (reFuel re s.data) none s.data with
  | some (some cs) => some (String.mk cs)
  | _ => none

/-! ### Pattern-building helpers -/

/-- A single literal character. -/
def rchar (c : Char) : RE := .cls (.lit c)

/-- A literal string, character by character. -/
def rlit (s : String) : RE :=
  s.data.foldr (fun c r => RE.seq (rchar c) r) RE.eps

/-- Preference-ordered alternation of a list of alternatives. -/
def ralts : List RE → RE
| [] => RE.eps
| [r] => r
| r :: rs => RE.alt r (ralts rs)

/-- Concatenation of a list of regexes. -/
def rseq (l : List RE) : RE := l.foldr RE.seq RE.eps

/-- Greedy option `x?`. -/
def ropt (a : RE) : RE := RE.alt a RE.eps

/-- `\s+` -/
def wsPlus : RE := RE.seq (.cls .ws) (.star (.cls .ws))

/-- `\s*` -/
def wsStar : RE := RE.star (.cls .ws)

/-- `.*` -/
def dotStar : RE := RE.star (.cls .dotAny)

/-- `\d+` -/
def digitPlus : RE := RE.seq (.cls .digit) (.star (.cls .digit))

/-- `\b` -/
def rwb : RE := RE.wb

/-! ## The intent pattern table (nlp.py `NLPProcessor.intent_patterns`)

Each Python regex is transcribed node by node; comments give the source
pattern. The table order is the Python dict's insertion order. -/

/-- `\b(pay|payment|paying)\b.*\b(now|today|immediately)\b` -/
def mpPat1 : RE := rseq [rwb, ralts [rlit "pay", rlit "payment", rlit "paying"],
  rwb, dotStar, rwb, ralts [rlit "now", rlit "today", rlit "immediately"], rwb]

/-- `\bupi\b.*\blink\b` -/
def mpPat2 : RE := rseq [rwb, rlit "upi", rwb, dotStar, rwb, rlit "link", rwb]

/-- `\bpaid?\b.*\bnow\b` -/
def mpPat3 : RE := rseq [rwb, rlit "pai", ropt (rchar 'd'), rwb, dotStar,
  rwb, rlit "now", rwb]

/-- `\b(pay|payment)\b.*\b(tomorrow|friday|monday|next week|soon)\b` -/
def ptpPat1 : RE := rseq [rwb, ralts [rlit "pay", rlit "payment"], rwb, dotStar,
  rwb, ralts [rlit "tomorrow", rlit "friday", rlit "monday", rlit "next week",
  rlit "soon"], rwb]

/-- `\bpromise\b.*\bpay\b` -/
def ptpPat2 : RE := rseq [rwb, rlit "promise", rwb, dotStar, rwb, rlit "pay", rwb]

/-- `\bwill pay\b.*\b(on|by)\b` -/
def ptpPat3 : RE := rseq [rwb, rlit "will pay", rwb, dotStar, rwb,
  ralts [rlit "on", rlit "by"], rwb]

/-- `\bnot\s+(mine|my)\b` -/
def disPat1 : RE := rseq [rwb, rlit "not", wsPlus, ralts [rlit "mine", rlit "my"], rwb]

/-- `\bdispute\b` -/
def disPat2 : RE := rseq [rwb, rlit "dispute", rwb]

/-- `\bwrong\s+amount\b` -/
def disPat3 : RE := rseq [rwb, rlit "wrong", wsPlus, rlit "amount", rwb]

/-- `\bneed\s+(statement|proof|details)\b` -/
def disPat4 : RE := rseq [rwb, rlit "need", wsPlus,
  ralts [rlit "statement", rlit "proof", rlit "details"], rwb]

/-- `\bwrong\s+number\b` -/
def wnPat1 : RE := rseq [rwb, rlit "wrong", wsPlus, rlit "number", rwb]

/-- `\bnot\s+(me|the|a)\s+(borrower|person)\b` -/
def wnPat2 : RE := rseq [rwb, rlit "not", wsPlus, ralts [rlit "me", rlit "the", rlit "a"],
  wsPlus, ralts [rlit "borrower", rlit "person"], rwb]

/-- `\bdon\'?t\s+know\b.*\bloan\b` -/
def wnPat3 : RE := rseq [rwb, rlit "don", ropt (rchar apos), rchar 't', wsPlus,
  rlit "know", rwb, dotStar, rwb, rlit "loan", rwb]

/-- `\bcall\s+back\b` -/
def cbPat1 : RE := rseq [rwb, rlit "call", wsPlus, rlit "back", rwb]

/-- `\blater\b` -/
def cbPat2 : RE := rseq [rwb, rlit "later", rwb]

/-- `\bnot\s+good\s+time\b` -/
def cbPat3 : RE := rseq [rwb, rlit "not", wsPlus, rlit "good", wsPlus, rlit "time", rwb]

/-- `\bbusy\b.*\bnow\b` -/
def cbPat4 : RE := rseq [rwb, rlit "busy", rwb, dotStar, rwb, rlit "now", rwb]

/-- `\bhardship\b` -/
def hsPat1 : RE := rseq [rwb, rlit "hardship", rwb]

/-- `\bfinancial\s+(difficulty|problem)\b` -/
def hsPat2 : RE := rseq [rwb, rlit "financial", wsPlus,
  ralts [rlit "difficulty", rlit "problem"], rwb]

/-- `\bjob\s+loss\b` -/
def hsPat3 : RE := rseq [rwb, rlit "job", wsPlus, rlit "loss", rwb]

/-- `\bcan\'?t\s+afford\b` -/
def hsPat4 : RE := rseq [rwb, rlit "can", ropt (rchar apos), rchar 't', wsPlus,
  rlit "afford", rwb]

/-- `\bagent\b` -/
def taPat1 : RE := rseq [rwb, rlit "agent", rwb]

/-- `\bmanager\b` -/
def taPat2 : RE := rseq [rwb, rlit "manager", rwb]

/-- `\bhuman\b` -/
def taPat3 : RE := rseq [rwb, rlit "human", rwb]

/-- `\btalk\s+to\s+someone\b` -/
def taPat4 : RE := rseq [rwb, rlit "talk", wsPlus, rlit "to", wsPlus, rlit "someone", rwb]

/-- `\bdo\s+not\s+call\b` -/
def dncPat1 : RE := rseq [rwb, rlit "do", wsPlus, rlit "not", wsPlus, rlit "call", rwb]

/-- `\bstop\s+calling\b` -/
def dncPat2 : RE := rseq [rwb, rlit "stop", wsPlus, rlit "calling", rwb]

/-- `\bdon\'?t\s+call\b` -/
def dncPat3 : RE := rseq [rwb, rlit "don", ropt (rchar apos), rchar 't', wsPlus,
  rlit "call", rwb]

/-- `\bopt\s+out\b` -/
def dncPat4 : RE := rseq [rwb, rlit "opt", wsPlus, rlit "out", rwb]

/-- MAKE_PAYMENT patterns, in source order. -/
def makePaymentPatterns : List RE := [mpPat1, mpPat2, mpPat3]

/-- PROMISE_TO_PAY patterns, in source order. -/
def promiseToPayPatterns : List RE := [ptpPat1, ptpPat2, ptpPat3]

/-- DISPUTE patterns, in source order. -/
def disputePatterns : List RE := [disPat1, disPat2, disPat3, disPat4]

/-- WRONG_NUMBER patterns, in source order. -/
def wrongNumberPatterns : List RE := [wnPat1, wnPat2, wnPat3]

/-- CALLBACK_LATER patterns, in source order. -/
def callbackLaterPatterns : List RE := [cbPat1, cbPat2, cbPat3, cbPat4]

/-- HARDSHIP patterns, in source order. -/
def hardshipPatterns : List RE := [hsPat1, hsPat2, hsPat3, hsPat4]

/-- TRANSFER_AGENT patterns, in source order. -/
def transferAgentPatterns : List RE := [taPat1, taPat2, taPat3, taPat4]

/-- DO_NOT_CALL patterns, in source order. -/
def doNotCallPatterns : List RE := [dncPat1, dncPat2, dncPat3, dncPat4]

/-- `NLPProcessor.intent_patterns`: the ordered intent-to-patterns table.
Order matches the Python dict's declaration order. -/
def intent_patterns : List (Intent × List RE) :=
  [(.MAKE_PAYMENT, makePaymentPatterns),
   (.PROMISE_TO_PAY, promiseToPayPatterns),
   (.DISPUTE, disputePatterns),
   (.WRONG_NUMBER, wrongNumberPatterns),
   (.CALLBACK_LATER, callbackLaterPatterns),
   (.HARDSHIP, hardshipPatterns),
   (.TRANSFER_AGENT, transferAgentPatterns),
   (.DO_NOT_CALL, doNotCallPatterns)]

/-- The intent-detection loop of `_fallback_analysis`: iterate the table in
order; the first intent with any matching pattern wins; otherwise UNCLEAR.
(The Python double loop with its two `break`s is exactly a first-match
search over the table.) `tl` is the already lower-cased text. -/
def detected_intent (tl : String) : Intent :=
  match intent_patterns.find? (fun ip => ip.2.any (fun p => reSearch p tl)) with
  | some ip => ip.1
  | none => .UNCLEAR

/-! ## Slot extraction patterns (`_fallback_analysis`, nlp.py lines 192-210) -/

/-- The amount pattern `\b(\d+(?:,\d+)*)\s*(?:rupees?|rs\.?|₹)?\b`;
the marked group is group 1, whose text the source keeps. -/
def amountPat : RE := rseq [rwb,
  RE.grp (RE.seq digitPlus (RE.star (RE.seq (rchar ',') digitPlus))),
  wsStar,
  ropt (ralts [RE.seq (rlit "rupee") (ropt (rchar 's')),
               RE.seq (rlit "rs") (ropt (rchar '.')),
               rlit "₹"]),
  rwb]

/-- `\b(tomorrow|today|monday|tuesday|wednesday|thursday|friday|saturday|sunday)\b`;
the source keeps the whole match (`match.group()`), so the group marks
the entire pattern. -/
def datePat1 : RE := RE.grp (rseq [rwb,
  ralts (["tomorrow", "today", "monday", "tuesday", "wednesday", "thursday",
          "friday", "saturday", "sunday"].map rlit), rwb])

/-- `\bnext\s+(week|month)\b`, whole match kept. -/
def datePat2 : RE := RE.grp (rseq [rwb, rlit "next", wsPlus,
  ralts [rlit "week", rlit "month"], rwb])

/-- `\b(\d{1,2})(?:st|nd|rd|th)?\s+(january|...|december)\b`, whole match kept. -/
def datePat3 : RE := RE.grp (rseq [rwb,
  RE.seq (RE.cls .digit) (ropt (RE.cls .digit)),
  ropt (ralts [rlit "st", rlit "nd", rlit "rd", rlit "th"]),
  wsPlus,
  ralts (["january", "february", "march", "april", "may", "june", "july",
          "august", "september", "october", "november", "december"].map rlit),
  rwb])

/-- The ordered date pattern list of `_fallback_analysis`. -/
def date_patterns : List RE := [datePat1, datePat2, datePat3]

/-- The amount slot: group 1 of the amount pattern with commas stripped
(`amount_match.group(1).replace(',', '')`). -/
def slotAmount (tl : String) : Option String :=
  (reCapture amountPat tl).map (fun s => String.mk (s.data.filter (fun c => !(c = ','))))

/-- The date slot: the whole match of the first date pattern that hits. -/
def slotDate (tl : String) : Option String :=
  match date_patterns.findSome? (fun p => reCapture p tl) with
  | some d => some d
  | none => none

/-- The slots dict built by `_fallback_analysis`: `amount` first (when the
amount pattern matched), then `date` (when some date pattern matched). -/
def fallbackSlots (tl : String) : List (String × String) :=
  (match slotAmount tl with
   | some a => [("amount", a)]
   | none => []) ++
  (match slotDate tl with
   | some d => [("date", d)]
   | none => [])

/-! ## Sentiment of the fallback path (nlp.py lines 182-190) -/

/-- Builds a string with an embedded apostrophe. -/
def withApos (a b : String) : String := a ++ String.singleton apos ++ b

/-- `positive_words` of the source. -/
def positive_words : List String :=
  ["yes", "okay", "sure", "definitely", "will pay", "can pay"]

/-- `negative_words` of the source. -/
def negative_words : List String :=
  ["no", withApos "can" "t", "unable", withApos "won" "t", "refuse", "angry"]

/-- Sentiment decision: any positive substring wins, else any negative
substring, else neutral; the positive check is evaluated first. -/
def fallbackSentiment (tl : String) : Sentiment :=
  if positive_words.any (fun w => strIn w tl) then .POSITIVE
  else if negative_words.any (fun w => strIn w tl) then .NEGATIVE
  else .NEUTRAL

/-! ## JSON values and the analysis dictionary

`analyze_utterance` returns a Python dict whose values come either from
the fallback (well-typed by construction) or from the JSON object parsed
out of the remote model's reply (arbitrary JSON). -/

/-- JSON values, as produced by `json.loads`. Numbers are modelled as
rationals. -/
inductive JVal where
  | str (s : String)
  | num (q : Rat)
  | bool (b : Bool)
  | null
  | arr (xs : List JVal)
  | obj (fields : List (String × JVal))

/-- An analysis dictionary: Python `Dict[str, Any]` restricted to JSON
values, as an ordered association list with unique keys. -/
abbrev AnalysisDict := List (String × JVal)

/-- Dict read: value of the first entry with key `k`, if any (keys are
unique in dicts produced by `json.loads` and by the fallback). -/
def getKey : AnalysisDict → String → Option JVal
| [], _ => none
| kv :: rest, k => if kv.1 = k then some kv.2 else getKey rest k

/-- Dict write on an existing key (`d[k] = v` in the source; the keys the
source assigns are already present by the required-fields check). -/
def setKey : AnalysisDict → String → JVal → AnalysisDict
| [], _, _ => []
| kv :: rest, k, v => (if kv.1 = k then (k, v) else kv) :: setKey rest k v

/-- The part of the `context` argument the fallback reads:
`context.get('current_state', 'START')`. -/
structure Context where
  current_state : String

/-! ## `_fallback_analysis` (nlp.py lines 164-241) -/

/-- The reply/next-state decision block of `_fallback_analysis`
(nlp.py lines 212-231), keyed on current state first and then on the
detected intent. -/
def fallbackReplyState (current_state : String) (di : Intent) : CallState × String :=
  if current_state = "VERIFY_IDENTITY" then
    (if di = .VERIFICATION then CallState.MAIN_MENU else CallState.VERIFY_IDENTITY,
     "Thank you. Now, how can I help you with your loan today?")
  else if di = .MAKE_PAYMENT then
    (CallState.COLLECT_DETAILS,
     withApos "Great! I" "ll help you make a payment. What amount would you like to pay?")
  else if di = .PROMISE_TO_PAY then
    (CallState.COLLECT_DETAILS,
     "I understand. When would you be able to make the payment?")
  else if di = .TRANSFER_AGENT then
    (CallState.TRANSFER,
     withApos "I" "ll transfer you to an agent. Please hold.")
  else if di = .DO_NOT_CALL then
    (CallState.END_CALL,
     withApos "I understand. I" "ll add you to our do-not-call list. Have a good day.")
  else
    (CallState.MAIN_MENU,
     "I understand. Is there anything else I can help you with today?")

/-- `NLPProcessor._fallback_analysis`: the rule-based tier. Total; always
returns the seven-key dictionary of the source's final `return`. -/
def fallback_analysis (text : String) (ctx : Context) : AnalysisDict :=
  let tl := pyLower text
  let di := detected_intent tl
  let confidence : Rat := if di = .UNCLEAR then (1 : Rat) / 2 else (7 : Rat) / 10
  let sent := fallbackSentiment tl
  let slots := fallbackSlots tl
  let rs := fallbackReplyState ctx.current_state di
  [("intent", JVal.str di.value),
   ("sentiment", JVal.str sent.value),
   ("slots", JVal.obj (slots.map (fun kv => (kv.1, JVal.str kv.2)))),
   ("reply_text", JVal.str rs.2),
   ("next_state", JVal.str rs.1.value),
   ("confidence", JVal.num confidence),
   ("fallback_used", JVal.bool true)]

/-! ## Normalization maps (nlp.py lines 243-278) -/

/-- `intent_map` of `_normalize_intent`; each value is the corresponding
`Intent` member's `.value`. -/
def intent_map : List (String × String) :=
  [("MAKE_PAYMENT", Intent.MAKE_PAYMENT.value),
   ("PROMISE_TO_PAY", Intent.PROMISE_TO_PAY.value),
   ("DISPUTE", Intent.DISPUTE.value),
   ("WRONG_NUMBER", Intent.WRONG_NUMBER.value),
   ("CALLBACK_LATER", Intent.CALLBACK_LATER.value),
   ("HARDSHIP", Intent.HARDSHIP.value),
   ("TRANSFER_AGENT", Intent.TRANSFER_AGENT.value),
   ("DO_NOT_CALL", Intent.DO_NOT_CALL.value),
   ("VERIFICATION", Intent.VERIFICATION.value),
   ("GREETING", Intent.GREETING.value)]

/-- `sentiment_map` of `_normalize_sentiment`. -/
def sentiment_map : List (String × String) :=
  [("POSITIVE", Sentiment.POSITIVE.value),
   ("NEGATIVE", Sentiment.NEGATIVE.value),
   ("NEUTRAL", Sentiment.NEUTRAL.value)]

/-- `state_map` of `_normalize_state`. Note: the source map holds only six
of the eight `CallState` members — START and CONSENT are absent. -/
def state_map : List (String × String) :=
  [("VERIFY_IDENTITY", CallState.VERIFY_IDENTITY.value),
   ("MAIN_MENU", CallState.MAIN_MENU.value),
   ("COLLECT_DETAILS", CallState.COLLECT_DETAILS.value),
   ("WRAP_UP", CallState.WRAP_UP.value),
   ("END_CALL", CallState.END_CALL.value),
   ("TRANSFER", CallState.TRANSFER.value)]

/-- `NLPProcessor._normalize_intent` on a string. -/
def normalize_intent (s : String) : String :=
  (lookupStr intent_map (pyUpper s)).getD Intent.UNCLEAR.value

/-- `NLPProcessor._normalize_sentiment` on a string. -/
def normalize_sentiment (s : String) : String :=
  (lookupStr sentiment_map (pyUpper s)).getD Sentiment.NEUTRAL.value

/-- `NLPProcessor._normalize_state` on a string. -/
def normalize_state (s : String) : String :=
  (lookupStr state_map (pyUpper s)).getD CallState.MAIN_MENU.value

/-- `_normalize_intent` applied to the JSON value found under `intent`:
Python calls `.upper()` on it, which raises `AttributeError` on any
non-string (caught by the enclosing `except`, hence `none`). -/
def normalizeIntentJ : JVal → Option String
| .str s => some (normalize_intent s)
| _ => none

/-- `_normalize_sentiment` on a JSON value; non-strings raise. -/
def normalizeSentimentJ : JVal → Option String
| .str s => some (normalize_sentiment s)
| _ => none

/-- `_normalize_state` on a JSON value; non-strings raise. -/
def normalizeStateJ : JVal → Option String
| .str s => some (normalize_state s)
| _ => none

/-! ## `analyze_utterance` (nlp.py lines 83-162)

The remote interaction (Anthropic client construction, prompt file read,
API call, brace-regex extraction and `json.loads`) is summarized by a
`RemoteOutcome`: each failure constructor is one terminal failure path of
the source, and `parsed` carries the JSON object that survived
extraction and parsing. -/

/-- Outcome of the remote-classifier interaction, one constructor per
source path. -/
inductive RemoteOutcome where
  | clientNone
  | promptMissing
  | apiException
  | noJsonObject
  | jsonDecodeError
  | parsed (obj : AnalysisDict)

/-- The required-fields presence check (nlp.py lines 143-144). -/
def requiredPresent (obj : AnalysisDict) : Bool :=
  ["intent", "sentiment", "slots", "reply_text", "next_state"].all
    (fun f => (getKey obj f).isSome)

/-- `NLPProcessor.analyze_utterance`. Every failure path of the source —
no client, missing prompt file, API exception, no JSON object in the
reply, JSON decode error, missing required fields, or a normalization
raising inside the outer `try` — returns `_fallback_analysis`; the
success path returns the parsed object with its `intent`, `sentiment`
and `next_state` entries normalized in place. -/
def analyze_utterance (remote : RemoteOutcome) (text : String) (ctx : Context) :
    AnalysisDict :=
  match remote with
  | .parsed obj =>
    if requiredPresent obj then
      match getKey obj "intent", getKey obj "sentiment", getKey obj "next_state" with
      | some vi, some vs, some vn =>
        match normalizeIntentJ vi, normalizeSentimentJ vs, normalizeStateJ vn with
        | some i, some s, some n =>
          setKey (setKey (setKey obj "intent" (JVal.str i))
            "sentiment" (JVal.str s)) "next_state" (JVal.str n)
        | _, _, _ => fallback_analysis text ctx
      | _, _, _ => fallback_analysis text ctx
    else fallback_analysis text ctx
  | _ => fallback_analysis text ctx

/-! ## `parse_promise_date` (db.py lines 246-274)

Dates are modelled by their day index: `today` is an abstract day count
in a calendar whose day 0 is a Monday, so Python's `date.weekday()` is
`today % 7` (Monday = 0, exactly the source's convention) and adding a
`timedelta(days = k)` is `+ k`. -/

/-- `parse_promise_date(date_str)` given the current day index. -/
def parse_promise_date (date_str : String) (today : Nat) : Nat :=
  let l := pyLower date_str
  if strIn "today" l then today
  else if strIn "tomorrow" l then today + 1
  else if strIn "monday" l then
    let d : Int := 0 - (today % 7 : Int)
    let d := if d ≤ 0 then d + 7 else d
    today + d.toNat
  else if strIn "friday" l then
    let d : Int := 4 - (today % 7 : Int)
    let d := if d ≤ 0 then d + 7 else d
    today + d.toNat
  else if strIn "next week" l then today + 7
  else if strIn "next month" l then today + 30
  else today + 1

/-! ## The action dispatcher `handle_intent` (telephony.py lines 207-249) -/

/-- Python `float()` on the amount strings this system passes around:
optional surrounding whitespace and sign, then digits with at most one
decimal point (at least one digit overall). Any other shape raises
`ValueError`, modelled as `none`. -/
def pyFloat (s : String) : Option Rat :=
  let t := pyStrip s
  let su : Int × List Char :=
    match t.data with
    | '-' :: rest => (-1, rest)
    | '+' :: rest => (1, rest)
    | l => (1, l)
  let ip := su.2.takeWhile (fun c => c.isDigit)
  let rest := su.2.drop ip.length
  match rest with
  | [] => if ip.isEmpty then none else some ((su.1 : Rat) * (digitsToNat ip : Rat))
  | '.' :: fp =>
    if fp.all (fun c => c.isDigit) && (!ip.isEmpty || !fp.isEmpty) then
      some ((su.1 : Rat) *
        ((digitsToNat ip * 10 ^ fp.length + digitsToNat fp : Nat) : Rat) /
        ((10 : Rat) ^ fp.length))
    else none
  | _ => none

/-- The `DispatchResult` dict returned by `handle_intent`:
`{'status': 'success'}` or `{'status': 'error', 'message': ...}`. -/
structure DispatchResult where
  status : String
  message : Option String := none
deriving DecidableEq, Repr

/-- The row the PROMISE_TO_PAY branch inserts into `ptp_promises`
(borrower and session references omitted — they are pass-through). -/
structure PtpRow where
  promise_date : String
  amount : Rat
deriving DecidableEq, Repr

/-- Python truthiness of `slots.get('amount')`: absent keys and the empty
string are falsy; any other string is truthy. -/
def pyTruthy : Option String → Bool
| none => false
| some s => !(s = "")

/-- `handle_intent`, with the database insert/commit of the selected
branch summarized by `w` (`Except.error` = the write raised). The pair's
second component is the `ptp_promises` row actually persisted, when one
is. For PROMISE_TO_PAY the source takes
`promise_date = slots.get('date', 'unspecified')` and
`amount = float(slots.get('amount', 0)) if slots.get('amount') else
borrower_data['due_amount']`; a `float()` failure raises inside the
`try`, so it too yields the error dict (and no row). All exceptions are
caught inside `handle_intent` itself and returned as an error-status
dict; nothing propagates. -/
def handle_intent (intent : String) (slots : List (String × String))
    (due_amount : Rat) (w : Except String Unit) :
    DispatchResult × Option PtpRow :=
  if intent = "PROMISE_TO_PAY" then
    let promise_date := (lookupStr slots "date").getD "unspecified"
    let amt : Option Rat :=
      if pyTruthy (lookupStr slots "amount") then
        pyFloat ((lookupStr slots "amount").getD "")
      else some due_amount
    match amt with
    | none => ({ status := "error", message := some "ValueError" }, none)
    | some amount =>
      match w with
      | .error e => ({ status := "error", message := some e }, none)
      | .ok _ => ({ status := "success" }, some { promise_date, amount })
  else if intent = "DO_NOT_CALL" then
    match w with
    | .error e => ({ status := "error", message := some e }, none)
    | .ok _ => ({ status := "success" }, none)
  else if intent = "CALLBACK_LATER" then
    match w with
    | .error e => ({ status := "error", message := some e }, none)
    | .ok _ => ({ status := "success" }, none)
  else
    ({ status := "success" }, none)

/-! ## The reply tail of `handle_speech_result` (telephony.py lines 158-199)

After the NLP analysis is logged, the handler calls `handle_intent`
(binding its result to a variable that is never read), then speaks
`analysis['reply_text']` and picks the follow-up action from
`analysis['next_state']`. Session-state and ledger writes around this
tail are modelled elsewhere; here they are taken as succeeding, since
this fragment is about how the dispatch outcome influences the reply. -/

/-- The TwiML action the handler ends the turn with. -/
inductive TwimlAction where
  | hangup
  | dialAgent
  | gatherNext (state : String)
deriving DecidableEq, Repr

/-- The analysis fields the handler's tail reads. -/
structure AnalysisFields where
  intent : String
  slots : List (String × String)
  reply_text : String
  next_state : String

/-- The follow-up decision on `analysis['next_state']`
(telephony.py lines 178-196). -/
def continueAction (next_state : String) : TwimlAction :=
  if next_state = "END_CALL" then .hangup
  else if next_state = "TRANSFER" then .dialAgent
  else .gatherNext next_state

/-- The tail of `handle_speech_result`: run the dispatcher (result bound
but unused, as in the source), then say the reply and choose the
follow-up. -/
def speech_result_tail (a : AnalysisFields) (due_amount : Rat)
    (w : Except String Unit) : String × TwimlAction :=
  let _next_action := handle_intent a.intent a.slots due_amount w
  (a.reply_text, continueAction a.next_state)

/-! ## The turn ledger (telephony.py lines 130-163, db.py log_call_turn)

The ledger of one session is the list of `turn_no` values inserted into
`call_logs`, in insertion order. A handler invocation reads
`MAX(turn_no)` (0 for an empty ledger), computes `current_turn = max + 1`
and appends the CALLER row at `current_turn` and the BOT row at
`current_turn + 1`. Nothing serializes the read against the inserts. -/

/-- `current_turn`: `(SELECT MAX(turn_no) ... or 0) + 1`. -/
def nextTurn (led : List Nat) : Nat := led.foldr max 0 + 1

/-- One complete sequential handler invocation: two appended rows. -/
def handlerInvoke (led : List Nat) : List Nat :=
  led ++ [nextTurn led, nextTurn led + 1]

/-- `n` sequential handler invocations starting from an empty ledger. -/
def runSeqInvocations : Nat → List Nat
| 0 => []
| n + 1 => handlerInvoke (runSeqInvocations n)

/-- The primitive steps of two concurrently running handler invocations
for the same session: each reads the max (into its local
`current_turn`), then performs its two inserts. -/
inductive TurnAct where
  | read1 | insA1 | insB1 | read2 | insA2 | insB2
deriving DecidableEq, Repr

/-- Interleaving state: the shared ledger plus each handler's local
`current_turn`. -/
structure ConcState where
  led : List Nat
  t1 : Nat
  t2 : Nat
deriving DecidableEq, Repr

/-- Effect of one primitive step. -/
def stepAct (st : ConcState) (a : TurnAct) : ConcState :=
  match a with
  | .read1 => { st with t1 := nextTurn st.led }
  | .insA1 => { st with led := st.led ++ [st.t1] }
  | .insB1 => { st with led := st.led ++ [st.t1 + 1] }
  | .read2 => { st with t2 := nextTurn st.led }
  | .insA2 => { st with led := st.led ++ [st.t2] }
  | .insB2 => { st with led := st.led ++ [st.t2 + 1] }

/-- Run a schedule of primitive steps. -/
def runActs (init : ConcState) (acts : List TurnAct) : ConcState :=
  acts.foldl stepAct init

/-- Program order of handler 1. -/
def handlerProg1 : List TurnAct := [.read1, .insA1, .insB1]

/-- Program order of handler 2. -/
def handlerProg2 : List TurnAct := [.read2, .insA2, .insB2]

/-- The racy schedule: both handlers read the max before either inserts
(a retried webhook delivery racing the original). -/
def racySchedule : List TurnAct := [.read1, .read2, .insA1, .insB1, .insA2, .insB2]

/-! ## Helper lemmas -/

/-- A defaulted association-list lookup lands in the default or a map value. -/
theorem lookupStr_getD_mem (m : List (String × String)) (k d : String) :
    (lookupStr m k).getD d ∈ d :: m.map (fun kv => kv.2) := by
  induction m with
  | nil => simp [lookupStr]
  | cons hd tl ih =>
    by_cases h : hd.1 = k
    · simp [lookupStr, List.find?_cons_of_pos, h]
    · simp only [lookupStr, List.map_cons]
      rw [List.find?_cons_of_neg _ (by simp [h])]
      have := ih
      simp only [lookupStr] at this
      rcases List.mem_cons.mp this with h1 | h1
      · exact List.mem_cons.mpr (Or.inl h1)
      · exact List.mem_cons.mpr (Or.inr (List.mem_cons.mpr (Or.inr h1)))

/-- Writing a present key makes a later read of that key see the new value. -/
theorem getKey_setKey_same (l : AnalysisDict) (k : String) (v : JVal)
    (h : (getKey l k).isSome) : getKey (setKey l k v) k = some v := by
  induction l with
  | nil => simp [getKey] at h
  | cons hd tl ih =>
    by_cases hk : hd.1 = k
    · simp [getKey, setKey, hk]
    · have h' : (getKey tl k).isSome := by simpa [getKey, hk] using h
      simp [getKey, setKey, hk, ih h']

/-- Writing one key leaves every other key's value unchanged. -/
theorem getKey_setKey_other (l : AnalysisDict) (k k' : String) (v : JVal)
    (h : k' ≠ k) : getKey (setKey l k v) k' = getKey l k' := by
  induction l with
  | nil => simp [getKey, setKey]
  | cons hd tl ih =>
    by_cases hk : hd.1 = k
    · have hne : ¬(k = k') := fun he => h he.symm
      simp [getKey, setKey, hk, hne, ih]
    · by_cases hk' : hd.1 = k'
      · simp [getKey, setKey, hk, hk', h]
      · simp [getKey, setKey, hk, hk', ih]

/-- The fallback's pattern table mentions no VERIFICATION entry, so the
first-match scan can never yield VERIFICATION. -/
theorem detected_intent_ne_verification (tl : String) :
    detected_intent tl ≠ Intent.VERIFICATION := by
  unfold detected_intent
  cases h : intent_patterns.find? (fun ip => ip.2.any (fun p => reSearch p tl)) with
  | none => simp
  | some ip =>
    have hm := List.mem_of_find?_eq_some h
    simp only [intent_patterns, List.mem_cons, List.not_mem_nil, or_false] at hm
    rcases hm with h1 | h1 | h1 | h1 | h1 | h1 | h1 | h1 <;> subst h1 <;> simp

/-- The strings `_normalize_intent` can return: the UNCLEAR default plus
the map's values. -/
def intentValueStrings : List String :=
  Intent.UNCLEAR.value :: intent_map.map (fun kv => kv.2)

/-- The strings `_normalize_sentiment` can return. -/
def sentimentValueStrings : List String :=
  Sentiment.NEUTRAL.value :: sentiment_map.map (fun kv => kv.2)

/-- The strings `_normalize_state` can return: the MAIN_MENU default plus
the six map values. -/
def stateValueStrings : List String :=
  CallState.MAIN_MENU.value :: state_map.map (fun kv => kv.2)

/-- `_normalize_intent` output is always a valid intent string. -/
theorem normalize_intent_mem (s : String) :
    normalize_intent s ∈ intentValueStrings :=
  lookupStr_getD_mem intent_map (pyUpper s) Intent.UNCLEAR.value

/-- `_normalize_sentiment` output is always a valid sentiment string. -/
theorem normalize_sentiment_mem (s : String) :
    normalize_sentiment s ∈ sentimentValueStrings :=
  lookupStr_getD_mem sentiment_map (pyUpper s) Sentiment.NEUTRAL.value

/-- `_normalize_state` output is always one of the six mapped states. -/
theorem normalize_state_mem (s : String) :
    normalize_state s ∈ stateValueStrings :=
  lookupStr_getD_mem state_map (pyUpper s) CallState.MAIN_MENU.value

/-- The fallback's intent string is a valid intent value. -/
theorem fallback_intent_mem (di : Intent) : di.value ∈ intentValueStrings := by
  cases di <;> decide

/-- The fallback's sentiment string is a valid sentiment value. -/
theorem fallback_sentiment_mem (tl : String) :
    (fallbackSentiment tl).value ∈ sentimentValueStrings := by
  unfold fallbackSentiment
  split_ifs <;> decide

/-- The fallback's next state is always one of the six states the
normalizer also produces. -/
theorem fallback_state_mem (cs : String) (di : Intent) :
    (fallbackReplyState cs di).1.value ∈ stateValueStrings := by
  unfold fallbackReplyState
  split_ifs <;> decide

/-- Reading the `intent` entry of a fallback result. -/
theorem fallback_getKey_intent (t : String) (c : Context) :
    getKey (fallback_analysis t c) "intent" =
      some (JVal.str (detected_intent (pyLower t)).value) := rfl

/-- Reading the `sentiment` entry of a fallback result. -/
theorem fallback_getKey_sentiment (t : String) (c : Context) :
    getKey (fallback_analysis t c) "sentiment" =
      some (JVal.str (fallbackSentiment (pyLower t)).value) := rfl

/-- Reading the `next_state` entry of a fallback result. -/
theorem fallback_getKey_next_state (t : String) (c : Context) :
    getKey (fallback_analysis t c) "next_state" =
      some (JVal.str (fallbackReplyState c.current_state
        (detected_intent (pyLower t))).1.value) := rfl

/-- Reading the `fallback_used` entry of a fallback result. -/
theorem fallback_getKey_fallback_used (t : String) (c : Context) :
    getKey (fallback_analysis t c) "fallback_used" = some (JVal.bool true) := rfl

/-- The fallback result always carries a `slots` entry. -/
theorem fallback_getKey_slots_isSome (t : String) (c : Context) :
    (getKey (fallback_analysis t c) "slots").isSome := rfl

/-- The fallback result always carries a `reply_text` entry. -/
theorem fallback_getKey_reply_isSome (t : String) (c : Context) :
    (getKey (fallback_analysis t c) "reply_text").isSome := rfl

/-- Folding `max` over `range' a m` (the SQL `MAX(turn_no)` of a gap-free
ledger). -/
theorem foldr_max_range' (m a : Nat) :
    (List.range' a m).foldr max 0 = if m = 0 then 0 else a + m - 1 := by
  induction m generalizing a with
  | zero => simp
  | succ m ih =>
    rw [show List.range' a (m + 1) = a :: List.range' (a + 1) m from
      List.range'_succ a m 1, List.foldr_cons, ih]
    by_cases h : m = 0
    · subst h; simp
    · rw [if_neg h, if_neg (Nat.succ_ne_zero m), Nat.max_eq_right (by omega)]
      omega

/-- `current_turn` over a gap-free ledger `1..m` is `m + 1`. -/
theorem nextTurn_range' (m : Nat) : nextTurn (List.range' 1 m) = m + 1 := by
  unfold nextTurn
  rw [foldr_max_range']
  split_ifs with h <;> omega

/-- Appending the next element extends a `range'`. -/
theorem range'_snoc (a m : Nat) :
    List.range' a m ++ [a + m] = List.range' a (m + 1) := by
  have h : List.range' a (m + 1) = List.range' a m ++ [a + 1 * m] :=
    List.range'_concat a m
  simp only [one_mul] at h
  exact h.symm

/-! ## Claim C2 — turn numbering -/

/-- Claim C2, counterexample to the concurrent half: in the interleaving
where both handler invocations read `MAX(turn_no)` before either inserts
(a retried webhook delivery racing the original), the ledger receives the
turn numbers 1, 2, 1, 2 — two records per turn number — even though the
schedule respects both handlers' program order. -/
theorem turn_race_duplicate_counterexample :
    handlerProg1.Sublist racySchedule ∧ handlerProg2.Sublist racySchedule ∧
    (runActs ⟨[], 0, 0⟩ racySchedule).led = [1, 2, 1, 2] ∧
    ¬ (runActs ⟨[], 0, 0⟩ racySchedule).led.Nodup := by
  refine ⟨?_, ?_, rfl, ?_⟩ <;> decide

/-- Claim C2, amended: sequential handler invocations do produce a
gap-free, duplicate-free ledger — `n` invocations yield the turn numbers
`1 .. 2n` in order (each invocation appends a CALLER and a BOT row). The
concurrent half of the claim fails, as the counterexample shows, because
each invocation computes `MAX(turn_no) + 1` in a read separate from its
inserts and nothing serializes the two. -/
theorem seq_turn_numbers_gap_free (n : Nat) :
    runSeqInvocations n = List.range' 1 (2 * n) ∧
    (runSeqInvocations n).Nodup := by
  have h : runSeqInvocations n = List.range' 1 (2 * n) := by
    induction n with
    | zero => rfl
    | succ n ih =>
      show handlerInvoke (runSeqInvocations n) = _
      rw [ih]
      unfold handlerInvoke
      rw [nextTurn_range']
      have hsplit : List.range' 1 (2 * n) ++ [2 * n + 1, 2 * n + 2] =
          (List.range' 1 (2 * n) ++ [1 + 2 * n]) ++ [1 + (2 * n + 1)] := by
        simp only [List.append_assoc, List.singleton_append]
        have e1 : 1 + 2 * n = 2 * n + 1 := by omega
        have e2 : 1 + (2 * n + 1) = 2 * n + 2 := by omega
        rw [e1, e2]
      rw [hsplit, range'_snoc 1 (2 * n), range'_snoc 1 (2 * n + 1)]
      have : 2 * n + 1 + 1 = 2 * (n + 1) := by omega
      rw [this]
  exact ⟨h, h ▸ List.nodup_range' 1 (2 * n)⟩

/-! ## Claim C5 — next-state normalization -/

/-- The Dialogue Policy state set of the spec: all eight `CallState`
values. -/
def policyStateSet : List String :=
  [CallState.START.value, CallState.CONSENT.value, CallState.VERIFY_IDENTITY.value,
   CallState.MAIN_MENU.value, CallState.COLLECT_DETAILS.value, CallState.WRAP_UP.value,
   CallState.END_CALL.value, CallState.TRANSFER.value]

/-- Claim C5, counterexample: "START" upper-cases to a member of the
Dialogue Policy state set, yet `_normalize_state` coerces it to
MAIN_MENU instead of returning it — the source's `state_map` omits START
(and CONSENT), so the normalizer rejects more than just the values
outside the state set. -/
theorem normalize_state_start_counterexample :
    pyUpper "START" ∈ policyStateSet ∧
    normalize_state "START" = CallState.MAIN_MENU.value ∧
    CallState.MAIN_MENU.value ≠ "START" := by
  refine ⟨by decide, rfl, by decide⟩

/-- Claim C5, amended: `_normalize_state` returns the upper-cased input
exactly when that upper-casing is one of the six keys of `state_map`
(VERIFY_IDENTITY, MAIN_MENU, COLLECT_DETAILS, WRAP_UP, END_CALL,
TRANSFER); every other value — including the state-set members START and
CONSENT — is coerced to MAIN_MENU. -/
theorem normalize_state_spec (s : String) :
    normalize_state s =
      if pyUpper s ∈ state_map.map (fun kv => kv.1) then pyUpper s
      else CallState.MAIN_MENU.value := by
  unfold normalize_state lookupStr state_map
  by_cases h1 : "VERIFY_IDENTITY" = pyUpper s <;>
  by_cases h2 : "MAIN_MENU" = pyUpper s <;>
  by_cases h3 : "COLLECT_DETAILS" = pyUpper s <;>
  by_cases h4 : "WRAP_UP" = pyUpper s <;>
  by_cases h5 : "END_CALL" = pyUpper s <;>
  by_cases h6 : "TRANSFER" = pyUpper s <;>
  simp_all [List.find?, CallState.value, eq_comm]

/-! ## Claim C8 — promise-date resolution of "Friday" -/

/-- Claim C8: resolving "Friday" never returns the current day; on a
Wednesday (`weekday = 2`) it lands two days ahead, and on a Friday
(`weekday = 4`) seven days ahead. -/
theorem parse_friday_never_today (today : Nat) :
    (today % 7 = 2 → parse_promise_date "Friday" today = today + 2) ∧
    (today % 7 = 4 → parse_promise_date "Friday" today = today + 7) ∧
    parse_promise_date "Friday" today ≠ today := by
  have he : parse_promise_date "Friday" today =
      today + (if (4 - (today % 7 : Int)) ≤ 0
               then 4 - (today % 7 : Int) + 7
               else 4 - (today % 7 : Int)).toNat := rfl
  refine ⟨fun h => ?_, fun h => ?_, ?_⟩ <;> rw [he] <;> split_ifs with hc <;> omega

/-- Witness for C8 at concrete days: day 2 is a Wednesday (Friday is day
4, two ahead), day 4 is a Friday (next Friday is day 11, seven ahead). -/
theorem parse_friday_never_today_witness :
    parse_promise_date "Friday" 2 = 4 ∧ parse_promise_date "Friday" 4 = 11 :=
  ⟨(parse_friday_never_today 2).1 rfl, (parse_friday_never_today 4).2.1 rfl⟩

/-! ## Claim C4 — the persisted promise's fields -/

/-- Claim C4, counterexample: with no `date` slot the persisted promise
date is the literal string "unspecified", not the claimed default
"tomorrow" (`handle_intent` inserts `slots.get('date', 'unspecified')`
verbatim and never calls `parse_promise_date`). -/
theorem promise_default_date_counterexample :
    (handle_intent "PROMISE_TO_PAY" [] 100 (.ok ())).2 =
      some { promise_date := "unspecified", amount := 100 } ∧
    "unspecified" ≠ "tomorrow" := ⟨rfl, by decide⟩

/-- Claim C4, amended: the persisted promise date is `slots.date` when
present and the literal "unspecified" otherwise; the amount is
`float(slots.amount)` when that slot is present and non-empty — an
unparseable amount makes the whole dispatch fail with an error result
and no persisted promise — and the borrower's full due amount only when
the slot is absent (or empty). -/
theorem promise_fields_spec (slots : List (String × String)) (due : Rat) :
    (∀ w r, (handle_intent "PROMISE_TO_PAY" slots due w).2 = some r →
      r.promise_date = (lookupStr slots "date").getD "unspecified") ∧
    (lookupStr slots "amount" = none →
      (handle_intent "PROMISE_TO_PAY" slots due (.ok ())).2 =
        some { promise_date := (lookupStr slots "date").getD "unspecified",
               amount := due }) ∧
    (∀ a q, lookupStr slots "amount" = some a → a ≠ "" → pyFloat a = some q →
      (handle_intent "PROMISE_TO_PAY" slots due (.ok ())).2 =
        some { promise_date := (lookupStr slots "date").getD "unspecified",
               amount := q }) ∧
    (∀ a w, lookupStr slots "amount" = some a → a ≠ "" → pyFloat a = none →
      (handle_intent "PROMISE_TO_PAY" slots due w).1.status = "error" ∧
      (handle_intent "PROMISE_TO_PAY" slots due w).2 = none) := by
  refine ⟨?_, ?_, ?_, ?_⟩
  · intro w r h
    cases hA : lookupStr slots "amount" with
    | none =>
      cases w <;> simp [handle_intent, hA, pyTruthy] at h <;> (subst h; rfl)
    | some a =>
      by_cases he : a = ""
      · subst he
        cases w <;> simp [handle_intent, hA, pyTruthy] at h <;> (subst h; rfl)
      · cases hq : pyFloat a with
        | none =>
          cases w <;> simp [handle_intent, hA, pyTruthy, he, hq] at h
        | some q =>
          cases w <;> simp [handle_intent, hA, pyTruthy, he, hq] at h <;>
            (subst h; rfl)
  · intro hA
    simp [handle_intent, hA, pyTruthy]
  · intro a q hA he hq
    simp [handle_intent, hA, pyTruthy, he, hq]
  · intro a w hA he hq
    cases w <;> simp [handle_intent, hA, pyTruthy, he, hq]

/-- Witness for the amended C4: a parseable amount slot is persisted as
given; an unparseable one produces the error result. -/
theorem promise_fields_spec_witness :
    (handle_intent "PROMISE_TO_PAY" [("date", "friday"), ("amount", "2500")]
        100 (.ok ())).2 = some { promise_date := "friday", amount := 2500 } ∧
    (handle_intent "PROMISE_TO_PAY" [("amount", "abc")] 100
        (.ok ())).1.status = "error" :=
  ⟨(promise_fields_spec [("date", "friday"), ("amount", "2500")] 100).2.2.1
      "2500" 2500 rfl (by decide)
      (by
        rw [show pyFloat "2500" =
          some (((1 : Int) : Rat) * ((2500 : Nat) : Rat)) from rfl]
        norm_num),
   ((promise_fields_spec [("amount", "abc")] 100).2.2.2
      "abc" (.ok ()) rfl (by decide) (by decide)).1⟩

/-! ## Claim C9 — dispatch failure does not alter the reply -/

/-- Claim C9: the spoken reply and the turn's continuation are computed
from the analysis alone — `handle_intent`'s result is bound to an unused
variable — so they are identical under any dispatch outcome; and a
failing side-effect write surfaces as an error-status DispatchResult for
each of the three write intents. -/
theorem dispatch_failure_keeps_reply (a : AnalysisFields) (due : Rat)
    (w w' : Except String Unit) (slots : List (String × String)) (e : String) :
    speech_result_tail a due w = speech_result_tail a due w' ∧
    (speech_result_tail a due w).1 = a.reply_text ∧
    (speech_result_tail a due w).2 = continueAction a.next_state ∧
    (handle_intent "DO_NOT_CALL" slots due (Except.error e)).1.status = "error" ∧
    (handle_intent "CALLBACK_LATER" slots due (Except.error e)).1.status = "error" ∧
    (lookupStr slots "amount" = none →
      (handle_intent "PROMISE_TO_PAY" slots due (Except.error e)).1.status = "error") := by
  refine ⟨rfl, rfl, rfl, rfl, rfl, fun hA => ?_⟩
  simp [handle_intent, hA, pyTruthy]

/-- Witness for C9 at a concrete turn: a promise turn whose insert fails
still speaks the chosen reply and gathers at the chosen state, while the
dispatcher reports the error. -/
theorem dispatch_failure_keeps_reply_witness :
    speech_result_tail
        { intent := "PROMISE_TO_PAY", slots := [], reply_text := "I understand.",
          next_state := "COLLECT_DETAILS" } 100 (Except.error "db down") =
      ("I understand.", TwimlAction.gatherNext "COLLECT_DETAILS") ∧
    (handle_intent "PROMISE_TO_PAY" [] 100 (Except.error "db down")).1.status =
      "error" :=
  ⟨by
    have h := (dispatch_failure_keeps_reply
      { intent := "PROMISE_TO_PAY", slots := [], reply_text := "I understand.",
        next_state := "COLLECT_DETAILS" } 100 (Except.error "db down")
      (.ok ()) [] "db down").1
    rw [h]
    rfl,
   (dispatch_failure_keeps_reply
      { intent := "PROMISE_TO_PAY", slots := [], reply_text := "I understand.",
        next_state := "COLLECT_DETAILS" } 100 (Except.error "db down")
      (.ok ()) [] "db down").2.2.2.2.2 rfl⟩

/-! ## Claim C6 — no forward progress without verification -/

/-- Claim C6: when the fallback runs with `current_state = VERIFY_IDENTITY`,
the returned `next_state` is VERIFY_IDENTITY whenever the detected intent
is not VERIFICATION, and can be MAIN_MENU only when the detected intent
is VERIFICATION. -/
theorem verify_identity_gate (text : String) (ctx : Context)
    (hcs : ctx.current_state = "VERIFY_IDENTITY") :
    (detected_intent (pyLower text) ≠ Intent.VERIFICATION →
      getKey (fallback_analysis text ctx) "next_state" =
        some (JVal.str CallState.VERIFY_IDENTITY.value)) ∧
    (getKey (fallback_analysis text ctx) "next_state" =
        some (JVal.str CallState.MAIN_MENU.value) →
      detected_intent (pyLower text) = Intent.VERIFICATION) := by
  have h := fallback_getKey_next_state text ctx
  rw [hcs] at h
  constructor
  · intro hne
    rw [h]
    simp [fallbackReplyState, hne]
  · intro hm
    by_contra hne
    rw [h] at hm
    simp [fallbackReplyState, hne, CallState.value] at hm

/-- Witness for C6: the caller text "hello" detects no VERIFICATION
intent, and the fallback keeps the caller at VERIFY_IDENTITY. -/
theorem verify_identity_gate_witness :
    getKey (fallback_analysis "hello" ⟨"VERIFY_IDENTITY"⟩) "next_state" =
      some (JVal.str CallState.VERIFY_IDENTITY.value) :=
  (verify_identity_gate "hello" ⟨"VERIFY_IDENTITY"⟩ rfl).1
    (detected_intent_ne_verification (pyLower "hello"))

/-! ## Claim C7 — table order decides ties -/

/-- Claim C7: any text matching at least one MAKE_PAYMENT pattern and at
least one HARDSHIP pattern classifies as MAKE_PAYMENT, because the
first-match scan meets MAKE_PAYMENT (the table's first entry) before
HARDSHIP. -/
theorem make_payment_precedence (tl : String)
    (hmp : ∃ p ∈ makePaymentPatterns, reSearch p tl = true)
    (_hhs : ∃ q ∈ hardshipPatterns, reSearch q tl = true) :
    detected_intent tl = Intent.MAKE_PAYMENT := by
  obtain ⟨p, hpmem, hp⟩ := hmp
  have hany : makePaymentPatterns.any (fun p => reSearch p tl) = true :=
    List.any_eq_true.mpr ⟨p, hpmem, hp⟩
  unfold detected_intent
  have hfind : intent_patterns.find? (fun ip => ip.2.any (fun p => reSearch p tl)) =
      some (Intent.MAKE_PAYMENT, makePaymentPatterns) := by
    unfold intent_patterns
    exact List.find?_cons_of_pos _ (by simpa using hany)
  rw [hfind]

/-- Witness for C7: "i can pay now but hardship" matches the first
MAKE_PAYMENT pattern and the first HARDSHIP pattern, and classifies as
MAKE_PAYMENT. -/
theorem make_payment_precedence_witness :
    detected_intent "i can pay now but hardship" = Intent.MAKE_PAYMENT :=
  make_payment_precedence "i can pay now but hardship"
    ⟨mpPat1, by simp [makePaymentPatterns], by decide⟩
    ⟨hsPat1, by simp [hardshipPatterns], by decide⟩

/-! ## Claim C10 — the fallback tier can never verify a caller -/

/-- Claim C10: the fallback's pattern table has no VERIFICATION entry, so
its detected intent is never VERIFICATION; consequently, from
VERIFY_IDENTITY the fallback path always returns VERIFY_IDENTITY as the
next state. -/
theorem fallback_never_verification (text : String) (ctx : Context) :
    detected_intent (pyLower text) ≠ Intent.VERIFICATION ∧
    (ctx.current_state = "VERIFY_IDENTITY" →
      getKey (fallback_analysis text ctx) "next_state" =
        some (JVal.str CallState.VERIFY_IDENTITY.value)) := by
  refine ⟨detected_intent_ne_verification _, fun hcs => ?_⟩
  have h := fallback_getKey_next_state text ctx
  rw [hcs] at h
  rw [h]
  simp [fallbackReplyState, detected_intent_ne_verification (pyLower text)]

/-- Witness for C10 at the caller text "hi" in state VERIFY_IDENTITY. -/
theorem fallback_never_verification_witness :
    detected_intent (pyLower "hi") ≠ Intent.VERIFICATION ∧
    getKey (fallback_analysis "hi" ⟨"VERIFY_IDENTITY"⟩) "next_state" =
      some (JVal.str CallState.VERIFY_IDENTITY.value) :=
  ⟨(fallback_never_verification "hi" ⟨"VERIFY_IDENTITY"⟩).1,
   (fallback_never_verification "hi" ⟨"VERIFY_IDENTITY"⟩).2 rfl⟩

/-! ## Claims C1 and C3 — the facade's result shape and `fallback_used` -/

/-- `normalizeIntentJ` only succeeds with a valid intent string. -/
theorem normalizeIntentJ_mem (v : JVal) (i : String)
    (h : normalizeIntentJ v = some i) : i ∈ intentValueStrings := by
  cases v <;> simp [normalizeIntentJ] at h
  exact h ▸ normalize_intent_mem _

/-- `normalizeSentimentJ` only succeeds with a valid sentiment string. -/
theorem normalizeSentimentJ_mem (v : JVal) (s : String)
    (h : normalizeSentimentJ v = some s) : s ∈ sentimentValueStrings := by
  cases v <;> simp [normalizeSentimentJ] at h
  exact h ▸ normalize_sentiment_mem _

/-- `normalizeStateJ` only succeeds with one of the six mapped states. -/
theorem normalizeStateJ_mem (v : JVal) (n : String)
    (h : normalizeStateJ v = some n) : n ∈ stateValueStrings := by
  cases v <;> simp [normalizeStateJ] at h
  exact h ▸ normalize_state_mem _

/-- The fallback result has all five required fields, with its `intent`,
`sentiment` and `next_state` in the respective enum value sets. -/
theorem fallback_total_and_typed (text : String) (ctx : Context) :
    (∃ i, getKey (fallback_analysis text ctx) "intent" = some (JVal.str i) ∧
       i ∈ intentValueStrings) ∧
    (∃ s, getKey (fallback_analysis text ctx) "sentiment" = some (JVal.str s) ∧
       s ∈ sentimentValueStrings) ∧
    (∃ n, getKey (fallback_analysis text ctx) "next_state" = some (JVal.str n) ∧
       n ∈ stateValueStrings) ∧
    (getKey (fallback_analysis text ctx) "slots").isSome ∧
    (getKey (fallback_analysis text ctx) "reply_text").isSome :=
  ⟨⟨(detected_intent (pyLower text)).value, fallback_getKey_intent text ctx,
     fallback_intent_mem _⟩,
   ⟨(fallbackSentiment (pyLower text)).value, fallback_getKey_sentiment text ctx,
     fallback_sentiment_mem _⟩,
   ⟨(fallbackReplyState ctx.current_state (detected_intent (pyLower text))).1.value,
     fallback_getKey_next_state text ctx, fallback_state_mem _ _⟩,
   fallback_getKey_slots_isSome text ctx,
   fallback_getKey_reply_isSome text ctx⟩

/-- A parsed remote object whose `slots` entry is a JSON number rather
than an object; the five required keys are all present. -/
def c1Obj : AnalysisDict :=
  [("intent", JVal.str "UNCLEAR"), ("sentiment", JVal.str "NEUTRAL"),
   ("slots", JVal.num 5), ("reply_text", JVal.str "ok"),
   ("next_state", JVal.str "MAIN_MENU")]

/-- Claim C1, counterexample to "correctly typed": on a remote-success
reply whose `slots` value is the JSON number 5, `analyze_utterance`
returns that value untouched — `slots` is not a mapping on this terminal
path, because the source validates only presence of the five keys and
normalizes only `intent`, `sentiment` and `next_state`. -/
theorem analyze_ill_typed_slots_counterexample :
    getKey (analyze_utterance (.parsed c1Obj) "hello" ⟨"MAIN_MENU"⟩) "slots" =
      some (JVal.num 5) ∧
    ∀ fields, JVal.num 5 ≠ JVal.obj fields :=
  ⟨rfl, fun _ h => JVal.noConfusion h⟩

/-- Claim C1, amended: on every terminal path — every remote failure
path and every parsed-reply path — `analyze_utterance` returns a
dictionary with all five required fields present, whose `intent`,
`sentiment` and `next_state` are valid enum strings; `slots` and
`reply_text` are present but pass through unvalidated on the
remote-success path. Totality is the totality of this definition, whose
branches cover each terminal path of the source. -/
theorem analyze_total_and_typed (remote : RemoteOutcome) (text : String)
    (ctx : Context) :
    (∃ i, getKey (analyze_utterance remote text ctx) "intent" =
       some (JVal.str i) ∧ i ∈ intentValueStrings) ∧
    (∃ s, getKey (analyze_utterance remote text ctx) "sentiment" =
       some (JVal.str s) ∧ s ∈ sentimentValueStrings) ∧
    (∃ n, getKey (analyze_utterance remote text ctx) "next_state" =
       some (JVal.str n) ∧ n ∈ stateValueStrings) ∧
    (getKey (analyze_utterance remote text ctx) "slots").isSome ∧
    (getKey (analyze_utterance remote text ctx) "reply_text").isSome := by
  cases remote with
  | clientNone => exact fallback_total_and_typed text ctx
  | promptMissing => exact fallback_total_and_typed text ctx
  | apiException => exact fallback_total_and_typed text ctx
  | noJsonObject => exact fallback_total_and_typed text ctx
  | jsonDecodeError => exact fallback_total_and_typed text ctx
  | parsed obj =>
    by_cases hreq : requiredPresent obj
    · have hP : (getKey obj "intent").isSome ∧ (getKey obj "sentiment").isSome ∧
          (getKey obj "slots").isSome ∧ (getKey obj "reply_text").isSome ∧
          (getKey obj "next_state").isSome := by
        simpa [requiredPresent] using hreq
      obtain ⟨vi, hvi⟩ := Option.isSome_iff_exists.mp hP.1
      obtain ⟨vs, hvs⟩ := Option.isSome_iff_exists.mp hP.2.1
      obtain ⟨vn, hvn⟩ := Option.isSome_iff_exists.mp hP.2.2.2.2
      cases hni : normalizeIntentJ vi with
      | none =>
        have he : analyze_utterance (.parsed obj) text ctx =
            fallback_analysis text ctx := by
          simp [analyze_utterance, hreq, hvi, hvs, hvn, hni]
        rw [he]; exact fallback_total_and_typed text ctx
      | some i =>
        cases hns : normalizeSentimentJ vs with
        | none =>
          have he : analyze_utterance (.parsed obj) text ctx =
              fallback_analysis text ctx := by
            simp [analyze_utterance, hreq, hvi, hvs, hvn, hni, hns]
          rw [he]; exact fallback_total_and_typed text ctx
        | some s =>
          cases hnn : normalizeStateJ vn with
          | none =>
            have he : analyze_utterance (.parsed obj) text ctx =
                fallback_analysis text ctx := by
              simp [analyze_utterance, hreq, hvi, hvs, hvn, hni, hns, hnn]
            rw [he]; exact fallback_total_and_typed text ctx
          | some n =>
            have he : analyze_utterance (.parsed obj) text ctx =
                setKey (setKey (setKey obj "intent" (JVal.str i))
                  "sentiment" (JVal.str s)) "next_state" (JVal.str n) := by
              simp [analyze_utterance, hreq, hvi, hvs, hvn, hni, hns, hnn]
            rw [he]
            have hIafter : getKey (setKey obj "intent" (JVal.str i)) "sentiment" =
                getKey obj "sentiment" :=
              getKey_setKey_other obj "intent" "sentiment" _ (by decide)
            refine ⟨⟨i, ?_, normalizeIntentJ_mem vi i hni⟩,
                    ⟨s, ?_, normalizeSentimentJ_mem vs s hns⟩,
                    ⟨n, ?_, normalizeStateJ_mem vn n hnn⟩, ?_, ?_⟩
            · rw [getKey_setKey_other _ "next_state" "intent" _ (by decide),
                getKey_setKey_other _ "sentiment" "intent" _ (by decide)]
              exact getKey_setKey_same obj "intent" _ hP.1
            · rw [getKey_setKey_other _ "next_state" "sentiment" _ (by decide)]
              refine getKey_setKey_same _ "sentiment" _ ?_
              rw [hIafter]
              exact hP.2.1
            · refine getKey_setKey_same _ "next_state" _ ?_
              rw [getKey_setKey_other _ "sentiment" "next_state" _ (by decide),
                getKey_setKey_other _ "intent" "next_state" _ (by decide)]
              exact hP.2.2.2.2
            · rw [getKey_setKey_other _ "next_state" "slots" _ (by decide),
                getKey_setKey_other _ "sentiment" "slots" _ (by decide),
                getKey_setKey_other _ "intent" "slots" _ (by decide)]
              exact hP.2.2.1
            · rw [getKey_setKey_other _ "next_state" "reply_text" _ (by decide),
                getKey_setKey_other _ "sentiment" "reply_text" _ (by decide),
                getKey_setKey_other _ "intent" "reply_text" _ (by decide)]
              exact hP.2.2.2.1
    · have he : analyze_utterance (.parsed obj) text ctx =
          fallback_analysis text ctx := by
        simp [analyze_utterance, hreq]
      rw [he]; exact fallback_total_and_typed text ctx

/-- A well-formed parsed remote reply that carries the five required keys
and, like the source model's instructed output, no `fallback_used` key. -/
def c3Obj : AnalysisDict :=
  [("intent", JVal.str "MAKE_PAYMENT"), ("sentiment", JVal.str "POSITIVE"),
   ("slots", JVal.obj []), ("reply_text", JVal.str "Sure."),
   ("next_state", JVal.str "COLLECT_DETAILS")]

/-- Claim C3, counterexample: on the remote-success path the source never
assigns `fallback_used = False`; it returns the parsed object as-is, so
a successful remote analysis that did not itself include the key yields
a result with no `fallback_used` field at all. -/
theorem remote_success_no_fallback_used_counterexample :
    getKey (analyze_utterance (.parsed c3Obj) "hello" ⟨"MAIN_MENU"⟩)
      "fallback_used" = none := rfl

/-- Claim C3, amended: every fallback path marks `fallback_used = True`
(the fallback dict carries the key, and every remote-failure outcome
returns that dict); the remote-success path does not set the field — the
result's `fallback_used` entry is exactly whatever the remote reply
itself carried, possibly nothing. -/
theorem fallback_used_marking (text : String) (ctx : Context)
    (obj : AnalysisDict) (si ss sn : String) :
    getKey (fallback_analysis text ctx) "fallback_used" =
      some (JVal.bool true) ∧
    (∀ remote : RemoteOutcome, (∀ o, remote ≠ .parsed o) →
      getKey (analyze_utterance remote text ctx) "fallback_used" =
        some (JVal.bool true)) ∧
    (requiredPresent obj = true →
      getKey obj "intent" = some (JVal.str si) →
      getKey obj "sentiment" = some (JVal.str ss) →
      getKey obj "next_state" = some (JVal.str sn) →
      getKey (analyze_utterance (.parsed obj) text ctx) "fallback_used" =
        getKey obj "fallback_used") := by
  refine ⟨fallback_getKey_fallback_used text ctx, ?_, ?_⟩
  · intro remote hnp
    cases remote with
    | parsed o => exact absurd rfl (hnp o)
    | clientNone => exact fallback_getKey_fallback_used text ctx
    | promptMissing => exact fallback_getKey_fallback_used text ctx
    | apiException => exact fallback_getKey_fallback_used text ctx
    | noJsonObject => exact fallback_getKey_fallback_used text ctx
    | jsonDecodeError => exact fallback_getKey_fallback_used text ctx
  · intro hreq hvi hvs hvn
    have he : analyze_utterance (.parsed obj) text ctx =
        setKey (setKey (setKey obj "intent" (JVal.str (normalize_intent si)))
          "sentiment" (JVal.str (normalize_sentiment ss)))
          "next_state" (JVal.str (normalize_state sn)) := by
      simp [analyze_utterance, hreq, hvi, hvs, hvn, normalizeIntentJ,
        normalizeSentimentJ, normalizeStateJ]
    rw [he, getKey_setKey_other _ "next_state" "fallback_used" _ (by decide),
      getKey_setKey_other _ "sentiment" "fallback_used" _ (by decide),
      getKey_setKey_other _ "intent" "fallback_used" _ (by decide)]

/-- Witness for the amended C3: a failing remote call yields a marked
fallback result, and a successful parsed reply keeps exactly the
`fallback_used` the reply itself carried (here: none). -/
theorem fallback_used_marking_witness :
    getKey (analyze_utterance .apiException "hello" ⟨"MAIN_MENU"⟩)
      "fallback_used" = some (JVal.bool true) ∧
    getKey (analyze_utterance (.parsed c3Obj) "hello" ⟨"MAIN_MENU"⟩)
      "fallback_used" = getKey c3Obj "fallback_used" :=
  ⟨(fallback_used_marking "hello" ⟨"MAIN_MENU"⟩ c3Obj "MAKE_PAYMENT" "POSITIVE"
      "COLLECT_DETAILS").2.1 .apiException (fun _ h => RemoteOutcome.noConfusion h),
   (fallback_used_marking "hello" ⟨"MAIN_MENU"⟩ c3Obj "MAKE_PAYMENT" "POSITIVE"
      "COLLECT_DETAILS").2.2 rfl rfl rfl rfl⟩

/-- Concrete instance of the amended C2: three sequential invocations
yield the ledger 1..6. -/
theorem seq_turn_numbers_gap_free_witness :
    runSeqInvocations 3 = [1, 2, 3, 4, 5, 6] ∧ (runSeqInvocations 3).Nodup :=
  ⟨(seq_turn_numbers_gap_free 3).1.trans (by decide),
   (seq_turn_numbers_gap_free 3).2⟩

/-- Concrete instance of the amended C5: a recognized state is returned
upper-cased. -/
theorem normalize_state_spec_witness : normalize_state "wrap_up" = "WRAP_UP" := by
  have h := normalize_state_spec "wrap_up"
  rw [h]
  rfl
